import Mathlib

/-!
Verification of the Route Quality Evaluator (`evaluator.py`).

The evaluator is embedded shallowly over exact rationals:

* Python floats become `ℚ`; `round(x, n)` becomes round-half-to-even at
  `n` decimal places (`roundHalfEven`), and Python `int(x)` becomes
  truncation toward zero (`int_py`).
* The transcendental core of `haversine_distance` (radians/sin/cos/atan2
  over floats) is abstracted as a parameter
  `hav : Coord → Coord → ℚ`; theorems that need it assume only that it is
  nonnegative, which the real haversine satisfies.  The haversine formula
  itself is developed separately over `ℝ` (`haversine_distance` below).
* A waypoint arrives as an untyped Python sequence; `wp[0]` / `wp[1]`
  raise `IndexError` when the sequence is too short.  A waypoint is
  therefore `List ℚ`, coordinate access is `pointCoords` returning
  `Option`, and each check that touches coordinates returns
  `Option CheckResult` (`none` models a raised exception).  A check first
  extracts the coordinates of the waypoints it iterates over
  (`List.mapM pointCoords`) and then computes; this has the same value
  and the same failure condition as the interleaved Python loops.
* The external event store (`load_events`, read from `events.json`) is
  modelled as an explicit `List Event` argument; a failed read is the
  empty list.
-/

namespace TG

/-- Coordinate pair (latitude, longitude) as exact rationals. -/
abbrev Coord := ℚ × ℚ

/-- Python `round` to an integer: round half to even (banker's rounding),
on the ideal rational value. -/
def roundHalfEven (q : ℚ) : ℤ :=
  if q - (⌊q⌋ : ℚ) < 1/2 then ⌊q⌋
  else if 1/2 < q - (⌊q⌋ : ℚ) then ⌊q⌋ + 1
  else if ⌊q⌋ % 2 = 0 then ⌊q⌋ else ⌊q⌋ + 1

/-- Python `round(x, 1)`. -/
def round1 (q : ℚ) : ℚ := (roundHalfEven (q * 10) : ℚ) / 10

/-- Python `round(x, 5)`, used for duplicate-waypoint keys. -/
def round5dp (q : ℚ) : ℚ := (roundHalfEven (q * 100000) : ℚ) / 100000

/-- Python `int(x)`: truncation toward zero. -/
def int_py (q : ℚ) : ℤ := if q < 0 then -⌊-q⌋ else ⌊q⌋

/-- Truthiness of an optional string field (Python: absent, `None` and
`""` are falsy). -/
def strTruthy : Option String → Bool
  | none => false
  | some s => !s.isEmpty

/-- Truthiness of an optional numeric field (Python: absent, `None` and
`0.0` are falsy). -/
def truthyQ : Option ℚ → Bool
  | none => false
  | some q => q != 0

/-- Value of a list of decimal digit characters. -/
def digitsVal (ds : List Char) : ℕ :=
  ds.foldl (fun n c => 10 * n + (c.toNat - 48)) 0

/-- Scan for the first match of the pattern digits-optionally-dot-digits
(the regex in `extract_number`) and return its value. -/
def extractNumAux : List Char → Option ℚ
  | [] => none
  | c :: rest =>
    if c.isDigit then
      let intPart := (c :: rest).takeWhile Char.isDigit
      let afterInt := (c :: rest).dropWhile Char.isDigit
      let intVal : ℚ := (digitsVal intPart : ℕ)
      match afterInt with
      | '.' :: r2 =>
        let fr := r2.takeWhile Char.isDigit
        if fr.isEmpty then some intVal
        else some (intVal + (digitsVal fr : ℚ) / ((10 : ℚ) ^ fr.length))
      | _ => some intVal
    else extractNumAux rest

/-- `extract_number` from `evaluator.py`: first decimal number occurring
in the text, `0.0` when there is none. -/
def extract_number (text : String) : ℚ :=
  (extractNumAux text.data).getD 0

/-- Event record from the external store (`events.json`). -/
structure Event where
  name : String
  lat : Option ℚ
  lon : Option ℚ
  geocoded : Bool
  deriving DecidableEq, Repr

/-- A route object as consumed by `score_route`.  Waypoints are untyped
Python sequences of numbers (`List ℚ`); absent list fields coincide with
empty ones (Python `.get(field, [])` and falsiness agree on that). -/
structure RouteData where
  waypoints : List (List ℚ)
  total_distance : Option String := none
  estimated_time : Option String := none
  route_description : Option String := none
  points_of_interest : List String := []
  local_events : List String := []
  deriving DecidableEq, Repr

/-- Result of one individual check (`result` dict in each `_check_*`). -/
structure CheckResult where
  name : String
  score : ℚ
  max : ℚ
  details : List String
  warnings : List String
  deriving DecidableEq, Repr

/-- The aggregate report built by `score_route`. -/
structure Report where
  total_score : ℤ
  max_score : ℚ
  checks : List (String × CheckResult)
  warnings : List String
  summary : String
  deriving DecidableEq, Repr

/-- Geofence bound `min_lat` for Athens, OH. -/
def min_lat : ℚ := 39.2

/-- Geofence bound `max_lat`. -/
def max_lat : ℚ := 39.45

/-- Geofence bound `min_lon`. -/
def min_lon : ℚ := -82.25

/-- Geofence bound `max_lon`. -/
def max_lon : ℚ := -81.95

/-- Scoring weight of the event-proximity check. -/
def w_event_proximity : ℚ := 25

/-- Scoring weight of the route-efficiency check. -/
def w_route_efficiency : ℚ := 20

/-- Scoring weight of the speed-sanity check. -/
def w_speed_sanity : ℚ := 20

/-- Scoring weight of the geofence check. -/
def w_geofence : ℚ := 15

/-- Scoring weight of the completeness check. -/
def w_completeness : ℚ := 10

/-- Scoring weight of the waypoint-quality check. -/
def w_waypoint_quality : ℚ := 10

/-- Minimum plausible walking speed (mph). -/
def min_walk_speed : ℚ := 1.5

/-- Maximum plausible walking speed (mph). -/
def max_walk_speed : ℚ := 4.5

/-- Python `wp[0]`, `wp[1]` on an untyped waypoint sequence: the first
two components, or an `IndexError` (`none`) when there are fewer than
two. -/
def pointCoords (wp : List ℚ) : Option Coord :=
  match wp with
  | a :: b :: _ => some (a, b)
  | _ => none

/-- Cumulative distance over consecutive waypoint pairs
(`sum of haversine_distance(waypoints[i], waypoints[i+1])`). -/
def pathDistance (hav : Coord → Coord → ℚ) : List Coord → ℚ
  | a :: b :: rest => hav a b + pathDistance hav (b :: rest)
  | _ => 0

/-- Distance from the first to the last waypoint
(`haversine_distance(waypoints[0], waypoints[-1])`). -/
def directDistance (hav : Coord → Coord → ℚ) (cs : List Coord) : ℚ :=
  hav (cs.headD (0, 0)) (cs.getLastD (0, 0))

/-- Membership in the rectangular Athens geofence (inclusive bounds). -/
def inBounds (c : Coord) : Bool :=
  decide (min_lat ≤ c.1 ∧ c.1 ≤ max_lat ∧ min_lon ≤ c.2 ∧ c.2 ≤ max_lon)

/-- Left-pad a digit string with zeros to the given width. -/
def padZeros (k : ℕ) (s : String) : String :=
  if s.length < k then String.mk (List.replicate (k - s.length) '0') ++ s else s

/-- Fixed-point display of a rational with `prec` decimal places
(Python format spec `:.2f` and friends); display only. -/
def fmtFixed (prec : ℕ) (q : ℚ) : String :=
  let n := roundHalfEven (q * ((10 : ℚ) ^ prec))
  let m := n.natAbs
  let ip := m / 10 ^ prec
  let fp := m % 10 ^ prec
  (if n < 0 then "-" else "") ++ toString ip ++
    (if prec = 0 then "" else "." ++ padZeros prec (toString fp))

/-- Plain display of a Python float (`f"{x}"`); display only. -/
def fmtPyFloat (q : ℚ) : String :=
  if q.den = 1 then toString q.num ++ ".0" else toString q

/-- Percentage display (`f"{x:.1%}"`); display only. -/
def fmtPercent (q : ℚ) : String :=
  fmtFixed 1 (q * 100) ++ "%"

/-- `_check_completeness`: presence scoring of required and optional
route fields. -/
def _check_completeness (route_data : RouteData) : CheckResult :=
  let m := w_completeness
  let wP := !route_data.waypoints.isEmpty
  let dP := strTruthy route_data.total_distance
  let tP := strTruthy route_data.estimated_time
  let descP := strTruthy route_data.route_description
  let poiP := !route_data.points_of_interest.isEmpty
  let evP := !route_data.local_events.isEmpty
  let required_present : ℕ :=
    (if wP then 1 else 0) + (if dP then 1 else 0) + (if tP then 1 else 0)
  let optional_present : ℕ :=
    (if descP then 1 else 0) + (if poiP then 1 else 0) + (if evP then 1 else 0)
  let required_score := ((required_present : ℚ) / 3) * 0.6 * m
  let optional_score := ((optional_present : ℚ) / 3) * 0.4 * m
  { name := "Completeness"
    score := round1 (required_score + optional_score)
    max := m
    details :=
      (if wP then ["waypoints: present"] else []) ++
      (if dP then ["total_distance: present"] else []) ++
      (if tP then ["estimated_time: present"] else []) ++
      ["Required: " ++ toString required_present ++ "/3, Optional: " ++
        toString optional_present ++ "/3"]
    warnings :=
      (if wP then [] else ["Missing required field: waypoints"]) ++
      (if dP then [] else ["Missing required field: total_distance"]) ++
      (if tP then [] else ["Missing required field: estimated_time"]) }

/-- The duplicate-detection loop of `_check_waypoint_quality`: walk the
waypoints keeping the set of 5-decimal-rounded keys seen so far, counting
repeats.  Returns (duplicate count, final key set). -/
def dupScan (seen : List Coord) : List Coord → ℕ × List Coord
  | [] => (0, seen)
  | c :: rest =>
    let key := (round5dp c.1, round5dp c.2)
    if key ∈ seen then
      let r := dupScan seen rest
      (r.1 + 1, r.2)
    else
      dupScan (key :: seen) rest

/-- Duplicate count and number of unique rounded keys among waypoints. -/
def dupStats (coords : List Coord) : ℕ × ℕ :=
  let r := dupScan [] coords
  (r.1, r.2.length)

/-- The tiny-gap loop of `_check_waypoint_quality`: number of consecutive
pairs closer than 0.001 miles. -/
def tinyGaps (hav : Coord → Coord → ℚ) : List Coord → ℕ
  | a :: b :: rest => (if hav a b < 0.001 then 1 else 0) + tinyGaps hav (b :: rest)
  | _ => 0

/-- Base count score of `_check_waypoint_quality`. -/
def wqCountScore (count : ℕ) : ℚ :=
  if count ≥ 10 then 1.0 else if count ≥ 5 then 0.8
  else if count ≥ 3 then 0.5 else 0.2

/-- Duplicate penalty subtracted from the base count score (the source
subtracts only when `duplicates > 0`, where the penalty is 0 anyway). -/
def wqDupPenalty (d : ℕ) : ℚ :=
  if d > 0 then min ((d : ℚ) * 0.1) 0.3 else 0

/-- Flat penalty when more than 30 percent of consecutive pairs are
closer than 0.001 miles. -/
def wqGapPenalty (tg count : ℕ) : ℚ :=
  if (tg : ℚ) > (count : ℚ) * 0.3 then 0.2 else 0

/-- `_check_waypoint_quality`: count, duplicate and spacing scoring. -/
def _check_waypoint_quality (hav : Coord → Coord → ℚ)
    (waypoints : List (List ℚ)) : Option CheckResult :=
  match waypoints.mapM pointCoords with
  | none => none
  | some coords =>
    let count := waypoints.length
    let countWarnings : List String :=
      if count ≥ 3 then []
      else ["Too few waypoints (" ++ toString count ++ ") for smooth route"]
    let st := dupStats coords
    let duplicates := st.1
    let dupWarnings : List String := if duplicates > 0
      then ["Found " ++ toString duplicates ++ " duplicate waypoints"] else []
    let tg := tinyGaps hav coords
    let gapWarnings : List String := if (tg : ℚ) > (count : ℚ) * 0.3
      then ["Many waypoints too close together (" ++ toString tg ++ ")"] else []
    some { name := "Waypoint Quality"
           score := round1 (max 0
             (wqCountScore count - wqDupPenalty duplicates - wqGapPenalty tg count)
             * w_waypoint_quality)
           max := w_waypoint_quality
           details := ["Waypoint count: " ++ toString count,
                       "Unique points: " ++ toString st.2]
           warnings := countWarnings ++ dupWarnings ++ gapWarnings }

/-- `_check_geofence`: fraction of waypoints inside the Athens box. -/
def _check_geofence (waypoints : List (List ℚ)) : Option CheckResult :=
  match waypoints.mapM pointCoords with
  | none => none
  | some coords =>
    let inB := coords.countP inBounds
    let outIdx := (coords.enum.filter (fun ic => !inBounds ic.2)).map Prod.fst
    let total := waypoints.length
    let frac : ℚ := if total > 0 then (inB : ℚ) / (total : ℚ) else 0
    some { name := "Geofence"
           score := round1 (frac * w_geofence)
           max := w_geofence
           details := ["In bounds: " ++ toString inB ++ "/" ++ toString total ++
                       " waypoints"]
           warnings := if outIdx.isEmpty then [] else
             ["Waypoints outside Athens area: indices " ++ toString (outIdx.take 5)
               ++ (if outIdx.length > 5 then "..." else "")] }

/-- The efficiency quotient of `_check_efficiency`: direct distance over
path distance, 0 when the path length is zero, 0.5 for a circular route
(direct distance not positive). -/
def effQuot (direct path : ℚ) : ℚ :=
  if direct > 0 then (if path > 0 then direct / path else 0) else 0.5

/-- The score fraction `_check_efficiency` assigns to an efficiency
quotient. -/
def effScoreFrac (e : ℚ) : ℚ :=
  if 0.25 ≤ e ∧ e ≤ 0.85 then 1.0
  else if e > 0.85 then 0.8
  else if e < 0.25 then e / 0.25 * 0.6
  else 0.5

/-- `_check_efficiency`: directness of the route, scored from the
efficiency quotient. -/
def _check_efficiency (hav : Coord → Coord → ℚ)
    (waypoints : List (List ℚ)) : Option CheckResult :=
  if waypoints.length < 2 then
    some { name := "Route Efficiency", score := 0, max := w_route_efficiency
           details := [], warnings := [] }
  else
    match waypoints.mapM pointCoords with
    | none => none
    | some coords =>
      let path_distance := pathDistance hav coords
      let direct_distance := directDistance hav coords
      let eff := effQuot direct_distance path_distance
      let circDetails : List String :=
        if direct_distance > 0 then [] else ["Circular route detected"]
      let baseDetails : List String :=
        ["Path distance: " ++ fmtFixed 2 path_distance ++ " mi",
         "Direct distance: " ++ fmtFixed 2 direct_distance ++ " mi",
         "Efficiency ratio: " ++ fmtFixed 2 eff]
      let directDetails : List String :=
        if 0.25 ≤ eff ∧ eff ≤ 0.85 then []
        else if eff > 0.85 then ["Route is very direct"] else []
      let zigWarnings : List String :=
        if 0.25 ≤ eff ∧ eff ≤ 0.85 then []
        else if eff > 0.85 then []
        else if eff < 0.25 then ["Route appears to zigzag excessively"]
        else []
      some { name := "Route Efficiency"
             score := round1 (effScoreFrac eff * w_route_efficiency)
             max := w_route_efficiency
             details := circDetails ++ baseDetails ++ directDetails
             warnings := zigWarnings }

/-- Warning text for a claimed-versus-calculated distance mismatch. -/
def distanceMismatchMsg (claimed actual : ℚ) : String :=
  "Distance mismatch: claimed " ++ fmtPyFloat claimed ++ " mi vs calculated " ++
    fmtFixed 2 actual ++ " mi"

/-- Warning text for a jogging-pace implied speed. -/
def joggingMsg (spd : ℚ) : String :=
  "Speed (" ++ fmtFixed 1 spd ++ " mph) is fast - jogging pace"

/-- Warning text for an implied speed unrealistic for walking. -/
def unrealisticMsg (spd : ℚ) : String :=
  "Speed (" ++ fmtFixed 1 spd ++ " mph) is unrealistic for walking"

/-- The relative error between calculated and claimed distance. -/
def relErr (claimed actual : ℚ) : ℚ := |actual - claimed| / claimed

/-- Distance-accuracy score fraction of `_check_speed` (half the check
when the error is at most 20 percent, 0.3 up to 50 percent, else 0;
nothing when no positive distance was claimed). -/
def distComp (claimed actual : ℚ) : ℚ :=
  if claimed > 0 then
    if relErr claimed actual ≤ 0.2 then 0.5
    else if relErr claimed actual ≤ 0.5 then 0.3
    else 0
  else 0

/-- The implied speed in mph from claimed distance (miles) and claimed
time (minutes). -/
def impliedSpeed (cd ct : ℚ) : ℚ := cd / (ct / 60)

/-- Speed-plausibility score fraction of `_check_speed`; awarded only
when both claimed values are positive. -/
def speedComp (cd ct : ℚ) : ℚ :=
  if ct > 0 ∧ cd > 0 then
    if min_walk_speed ≤ impliedSpeed cd ct ∧ impliedSpeed cd ct ≤ max_walk_speed
      then 0.5
    else if impliedSpeed cd ct < min_walk_speed then 0.3
    else if impliedSpeed cd ct ≤ 6.0 then 0.3
    else 0
  else 0

/-- `_check_speed`: distance-accuracy and implied-walking-speed scoring. -/
def _check_speed (hav : Coord → Coord → ℚ) (route_data : RouteData)
    (waypoints : List (List ℚ)) : Option CheckResult :=
  match waypoints.mapM pointCoords with
  | none => none
  | some coords =>
    let claimed_distance := extract_number (route_data.total_distance.getD "0")
    let claimed_time := extract_number (route_data.estimated_time.getD "0")
    let actual_distance := pathDistance hav coords
    let baseDetails : List String :=
      ["Claimed distance: " ++ fmtPyFloat claimed_distance ++ " mi",
       "Calculated distance: " ++ fmtFixed 2 actual_distance ++ " mi",
       "Claimed time: " ++ fmtPyFloat claimed_time ++ " min"]
    let distance_error := relErr claimed_distance actual_distance
    let distDetails : List String :=
      if claimed_distance > 0 then
        if distance_error ≤ 0.2 then
          ["Distance error: " ++ fmtPercent distance_error ++ " (acceptable)"]
        else if distance_error ≤ 0.5 then
          ["Distance error: " ++ fmtPercent distance_error ++ " (high)"]
        else []
      else []
    let distWarnings : List String :=
      if claimed_distance > 0 then
        if distance_error ≤ 0.5 then []
        else [distanceMismatchMsg claimed_distance actual_distance]
      else []
    let speed_mph := impliedSpeed claimed_distance claimed_time
    let spdDetails : List String :=
      if claimed_time > 0 ∧ claimed_distance > 0 then
        ("Implied speed: " ++ fmtFixed 1 speed_mph ++ " mph") ::
        (if min_walk_speed ≤ speed_mph ∧ speed_mph ≤ max_walk_speed then
          ["Speed is reasonable for walking"]
        else if speed_mph < min_walk_speed then
          ["Speed is slow (may include stops)"]
        else [])
      else []
    let spdWarnings : List String :=
      if claimed_time > 0 ∧ claimed_distance > 0 then
        if min_walk_speed ≤ speed_mph ∧ speed_mph ≤ max_walk_speed then []
        else if speed_mph < min_walk_speed then []
        else if speed_mph ≤ 6.0 then [joggingMsg speed_mph]
        else [unrealisticMsg speed_mph]
      else []
    some { name := "Speed Sanity"
           score := round1 ((distComp claimed_distance actual_distance +
             speedComp claimed_distance claimed_time) * w_speed_sanity)
           max := w_speed_sanity
           details := baseDetails ++ distDetails ++ spdDetails
           warnings := distWarnings ++ spdWarnings }

/-- The filter on the loaded event store: only events whose `geocoded`
flag and both coordinates are truthy take part in proximity scoring. -/
def geocodedEvents (events : List Event) : List Event :=
  events.filter (fun e => e.geocoded && truthyQ e.lat && truthyQ e.lon)

/-- Coordinate pair of a geocoded event (`(event['lat'], event['lon'])`). -/
def eventCoord (e : Event) : Coord := (e.lat.getD 0, e.lon.getD 0)

/-- Minimum distance from any waypoint to a target coordinate; `none`
models the initial infinity when there are no waypoints. -/
def minDistTo (hav : Coord → Coord → ℚ) (coords : List Coord) (ec : Coord) :
    Option ℚ :=
  coords.foldl (fun acc c =>
    match acc with
    | none => some (hav c ec)
    | some m => some (min m (hav c ec))) none

/-- Whether the route passes within 0.2 miles of the event. -/
def nearEvent (hav : Coord → Coord → ℚ) (coords : List Coord) (e : Event) :
    Bool :=
  match minDistTo hav coords (eventCoord e) with
  | some d => decide (d ≤ 0.2)
  | none => false

/-- The PASS/MISS detail line recorded for one geocoded event. -/
def eventDetail (hav : Coord → Coord → ℚ) (coords : List Coord) (e : Event) :
    String :=
  match minDistTo hav coords (eventCoord e) with
  | some d => (if d ≤ 0.2 then "PASS: " else "MISS: ") ++ e.name ++ " - " ++
      fmtFixed 2 d ++ " mi from route"
  | none => "MISS: " ++ e.name ++ " - inf mi from route"

/-- `_check_event_proximity`: fraction of geocoded store events the route
passes within 0.2 miles, with neutral half-credit when there is nothing
to verify. -/
def _check_event_proximity (hav : Coord → Coord → ℚ) (events : List Event)
    (route_data : RouteData) (waypoints : List (List ℚ)) : Option CheckResult :=
  let ge := geocodedEvents events
  if ge.isEmpty then
    some { name := "Event Proximity", score := w_event_proximity * 0.5
           max := w_event_proximity
           details := ["No geocoded events to verify against"], warnings := [] }
  else if route_data.local_events.isEmpty &&
      route_data.points_of_interest.isEmpty then
    some { name := "Event Proximity", score := w_event_proximity * 0.5
           max := w_event_proximity
           details := ["Route does not reference specific events"], warnings := [] }
  else
    match waypoints.mapM pointCoords with
    | none => none
    | some coords =>
      let near := ge.countP (nearEvent hav coords)
      let frac : ℚ := (near : ℚ) / (ge.length : ℚ)
      some { name := "Event Proximity"
             score := round1 (frac * w_event_proximity)
             max := w_event_proximity
             details := ge.map (eventDetail hav coords) ++
               ["Route passes " ++ toString near ++ "/" ++ toString ge.length ++
                 " events within 0.2 mi"]
             warnings := if near = 0
               then ["Route does not pass near any known events"] else [] }

/-- The summary band chosen from the pre-truncation total. -/
def bandOfTotal (total : ℚ) : String :=
  if total ≥ 80 then "Good quality route"
  else if total ≥ 60 then "Acceptable route with some issues"
  else if total ≥ 40 then "Poor quality route - review warnings"
  else "Low quality route - significant issues"

/-- The report returned on the critical no-waypoints path. -/
def fatalReport : Report :=
  { total_score := 0, max_score := 100, checks := []
    warnings := ["CRITICAL: No valid waypoints found"]
    summary := "Route failed - no waypoints" }

/-- `score_route`: the main entry point.  Returns the pair
(total score, report); `none` models a raised exception. -/
def score_route (hav : Coord → Coord → ℚ) (events : List Event)
    (route_data : RouteData) : Option (ℤ × Report) :=
  let waypoints := route_data.waypoints
  if waypoints.length < 2 then some (0, fatalReport)
  else
    match _check_waypoint_quality hav waypoints, _check_geofence waypoints,
        _check_efficiency hav waypoints, _check_speed hav route_data waypoints,
        _check_event_proximity hav events route_data waypoints with
    | some c2, some c3, some c4, some c5, some c6 =>
      let c1 := _check_completeness route_data
      let total := c1.score + c2.score + c3.score + c4.score + c5.score + c6.score
      some (int_py total,
        { total_score := int_py total
          max_score := 100
          checks := [("completeness", c1), ("waypoint_quality", c2),
                     ("geofence", c3), ("route_efficiency", c4),
                     ("speed_sanity", c5), ("event_proximity", c6)]
          warnings := c1.warnings ++ c2.warnings ++ c3.warnings ++
            c4.warnings ++ c5.warnings ++ c6.warnings
          summary := bandOfTotal total })
    | _, _, _, _, _ => none

/-! ### Arithmetic facts about the rounding primitives -/

theorem roundHalfEven_intCast (n : ℤ) : roundHalfEven (n : ℚ) = n := by
  unfold roundHalfEven
  simp [Int.floor_intCast]

theorem floor_le_roundHalfEven (q : ℚ) : ⌊q⌋ ≤ roundHalfEven q := by
  unfold roundHalfEven
  repeat' split
  all_goals omega

theorem roundHalfEven_le_floor_add_one (q : ℚ) :
    roundHalfEven q ≤ ⌊q⌋ + 1 := by
  unfold roundHalfEven
  repeat' split
  all_goals omega

theorem roundHalfEven_nonneg (q : ℚ) (h : 0 ≤ q) : 0 ≤ roundHalfEven q := by
  have h0 : (0 : ℤ) ≤ ⌊q⌋ := Int.floor_nonneg.mpr h
  exact le_trans h0 (floor_le_roundHalfEven q)

theorem int_le_roundHalfEven (q : ℚ) (n : ℤ) (h : (n : ℚ) ≤ q) :
    n ≤ roundHalfEven q :=
  le_trans (Int.le_floor.mpr h) (floor_le_roundHalfEven q)

theorem roundHalfEven_le_int (q : ℚ) (n : ℤ) (h : q ≤ (n : ℚ)) :
    roundHalfEven q ≤ n := by
  have hf : ⌊q⌋ ≤ n := by
    have h2 := Int.floor_le_floor h
    simpa using h2
  rcases lt_or_eq_of_le hf with hlt | heq
  · exact le_trans (roundHalfEven_le_floor_add_one q) (by omega)
  · have hge : (n : ℚ) ≤ q := heq ▸ Int.floor_le q
    have hq : q = (n : ℚ) := le_antisymm h hge
    rw [hq, roundHalfEven_intCast]

theorem round1_nonneg (q : ℚ) (h : 0 ≤ q) : 0 ≤ round1 q := by
  unfold round1
  have : (0 : ℤ) ≤ roundHalfEven (q * 10) :=
    roundHalfEven_nonneg _ (by positivity)
  positivity

theorem round1_le_nat (q : ℚ) (n : ℕ) (h : q ≤ (n : ℚ)) : round1 q ≤ (n : ℚ) := by
  unfold round1
  have h1 : q * 10 ≤ ((10 * n : ℤ) : ℚ) := by push_cast; linarith
  have h2 : roundHalfEven (q * 10) ≤ (10 * n : ℤ) := roundHalfEven_le_int _ _ h1
  have h3 : ((roundHalfEven (q * 10) : ℚ)) ≤ ((10 * n : ℤ) : ℚ) := by
    exact_mod_cast h2
  rw [div_le_iff (by norm_num)]
  push_cast at h3 ⊢
  linarith

theorem round1_eq_self (q : ℚ) (k : ℤ) (h : q * 10 = (k : ℚ)) :
    round1 q = q := by
  unfold round1
  rw [h, roundHalfEven_intCast]
  field_simp
  linarith

theorem int_py_of_nonneg (q : ℚ) (h : 0 ≤ q) : int_py q = ⌊q⌋ := by
  unfold int_py
  rw [if_neg (not_lt.mpr h)]

theorem int_py_nonneg (q : ℚ) (h : 0 ≤ q) : 0 ≤ int_py q := by
  rw [int_py_of_nonneg q h]
  exact Int.floor_nonneg.mpr h

theorem int_py_le_nat (q : ℚ) (n : ℕ) (h0 : 0 ≤ q) (h : q ≤ (n : ℚ)) :
    int_py q ≤ (n : ℤ) := by
  rw [int_py_of_nonneg q h0]
  have h2 := Int.floor_le_floor h
  simpa using h2

/-! ### Well-formed waypoint lists -/

theorem mapM_pointCoords_length {wps : List (List ℚ)} {cs : List Coord}
    (h : wps.mapM pointCoords = some cs) : cs.length = wps.length := by
  induction wps generalizing cs with
  | nil =>
    simp only [List.mapM_nil, pure, Option.some.injEq] at h
    subst h; rfl
  | cons a l ih =>
    rw [List.mapM_cons] at h
    cases hpc : pointCoords a with
    | none => rw [hpc] at h; simp at h
    | some c =>
      rw [hpc] at h
      cases hrest : l.mapM pointCoords with
      | none => rw [hrest] at h; simp at h
      | some rest =>
        rw [hrest] at h
        simp at h
        subst h
        simp [ih hrest]

/-! ### Range facts for the individual score fractions -/

theorem wqCountScore_le_one (n : ℕ) : wqCountScore n ≤ 1 := by
  unfold wqCountScore
  repeat' split
  all_goals norm_num

theorem wqDupPenalty_nonneg (d : ℕ) : 0 ≤ wqDupPenalty d := by
  unfold wqDupPenalty
  split
  · exact le_min (by positivity) (by norm_num)
  · exact le_refl 0

theorem wqGapPenalty_nonneg (tg c : ℕ) : 0 ≤ wqGapPenalty tg c := by
  unfold wqGapPenalty
  split <;> norm_num

theorem effQuot_nonneg (d p : ℚ) (hd : 0 ≤ d) : 0 ≤ effQuot d p := by
  unfold effQuot
  split
  · split
    · positivity
    · exact le_refl 0
  · norm_num

theorem effScoreFrac_nonneg (e : ℚ) (he : 0 ≤ e) : 0 ≤ effScoreFrac e := by
  have hkey : e / 0.25 * 0.6 = e * 2.4 := by ring
  unfold effScoreFrac
  repeat' split
  all_goals first | (rw [hkey]; linarith) | norm_num

theorem effScoreFrac_le_one (e : ℚ) : effScoreFrac e ≤ 1 := by
  have hkey : e / 0.25 * 0.6 = e * 2.4 := by ring
  unfold effScoreFrac
  split
  · norm_num
  split
  · norm_num
  split
  · rename_i h3
    rw [hkey]
    linarith
  · norm_num

theorem distComp_nonneg (c a : ℚ) : 0 ≤ distComp c a := by
  unfold distComp
  repeat' split
  all_goals norm_num

theorem distComp_le_half (c a : ℚ) : distComp c a ≤ 0.5 := by
  unfold distComp
  repeat' split
  all_goals norm_num

theorem speedComp_nonneg (cd ct : ℚ) : 0 ≤ speedComp cd ct := by
  unfold speedComp
  repeat' split
  all_goals norm_num

theorem speedComp_le_half (cd ct : ℚ) : speedComp cd ct ≤ 0.5 := by
  unfold speedComp
  repeat' split
  all_goals norm_num

theorem pathDistance_nonneg (hav : Coord → Coord → ℚ)
    (hnn : ∀ p q, 0 ≤ hav p q) (cs : List Coord) : 0 ≤ pathDistance hav cs := by
  induction cs with
  | nil => simp [pathDistance]
  | cons a l ih =>
    cases l with
    | nil => simp [pathDistance]
    | cons b r =>
      have h1 := hnn a b
      have h2 : 0 ≤ pathDistance hav (b :: r) := ih
      unfold pathDistance
      linarith

/-! ### Per-check success and range lemmas -/

theorem completeness_spec (rd : RouteData) :
    (_check_completeness rd).max = w_completeness ∧
    0 ≤ (_check_completeness rd).score ∧
    (_check_completeness rd).score ≤ w_completeness := by
  have hcount : ∀ b1 b2 b3 : Bool,
      ((if b1 then 1 else 0) + (if b2 then 1 else 0) + (if b3 then 1 else 0) : ℕ)
        ≤ 3 := by
    intro b1 b2 b3
    cases b1 <;> cases b2 <;> cases b3 <;> norm_num
  have key : ∀ rp op : ℕ, rp ≤ 3 → op ≤ 3 →
      0 ≤ round1 (((rp : ℚ) / 3) * 0.6 * w_completeness +
          ((op : ℚ) / 3) * 0.4 * w_completeness) ∧
      round1 (((rp : ℚ) / 3) * 0.6 * w_completeness +
          ((op : ℚ) / 3) * 0.4 * w_completeness) ≤ w_completeness := by
    intro rp op h1 h2
    have hr : (rp : ℚ) ≤ 3 := by exact_mod_cast h1
    have ho : (op : ℚ) ≤ 3 := by exact_mod_cast h2
    have hr0 : (0 : ℚ) ≤ (rp : ℚ) := Nat.cast_nonneg rp
    have ho0 : (0 : ℚ) ≤ (op : ℚ) := Nat.cast_nonneg op
    have harg0 : 0 ≤ ((rp : ℚ) / 3) * 0.6 * w_completeness +
        ((op : ℚ) / 3) * 0.4 * w_completeness := by
      unfold w_completeness; positivity
    have harg1 : ((rp : ℚ) / 3) * 0.6 * w_completeness +
        ((op : ℚ) / 3) * 0.4 * w_completeness ≤ ((10 : ℕ) : ℚ) := by
      unfold w_completeness
      push_cast
      linarith
    refine ⟨round1_nonneg _ harg0, ?_⟩
    have h3 := round1_le_nat _ 10 harg1
    unfold w_completeness
    simpa using h3
  unfold _check_completeness
  exact ⟨rfl, (key _ _ (hcount _ _ _) (hcount _ _ _)).1,
    (key _ _ (hcount _ _ _) (hcount _ _ _)).2⟩

theorem wq_spec (hav : Coord → Coord → ℚ) (wps : List (List ℚ)) (cs : List Coord)
    (hm : wps.mapM pointCoords = some cs) :
    ∃ c, _check_waypoint_quality hav wps = some c ∧ c.max = w_waypoint_quality ∧
      0 ≤ c.score ∧ c.score ≤ w_waypoint_quality := by
  unfold _check_waypoint_quality
  rw [hm]
  refine ⟨_, rfl, rfl, ?_, ?_⟩
  · apply round1_nonneg
    apply mul_nonneg (le_max_left 0 _)
    unfold w_waypoint_quality; norm_num
  · have hb : max 0 (wqCountScore wps.length - wqDupPenalty (dupStats cs).1 -
        wqGapPenalty (tinyGaps hav cs) wps.length) ≤ 1 := by
      apply max_le (by norm_num)
      have h1 := wqCountScore_le_one wps.length
      have h2 := wqDupPenalty_nonneg (dupStats cs).1
      have h3 := wqGapPenalty_nonneg (tinyGaps hav cs) wps.length
      linarith
    have harg : max 0 (wqCountScore wps.length - wqDupPenalty (dupStats cs).1 -
        wqGapPenalty (tinyGaps hav cs) wps.length) * w_waypoint_quality ≤
        ((10 : ℕ) : ℚ) := by
      have h0 := le_max_left (0 : ℚ) (wqCountScore wps.length -
        wqDupPenalty (dupStats cs).1 - wqGapPenalty (tinyGaps hav cs) wps.length)
      unfold w_waypoint_quality
      push_cast
      nlinarith
    have h4 := round1_le_nat _ 10 harg
    unfold w_waypoint_quality
    simpa using h4

theorem geofence_spec (wps : List (List ℚ)) (cs : List Coord)
    (hm : wps.mapM pointCoords = some cs) :
    ∃ c, _check_geofence wps = some c ∧ c.max = w_geofence ∧
      0 ≤ c.score ∧ c.score ≤ w_geofence := by
  unfold _check_geofence
  rw [hm]
  refine ⟨_, rfl, rfl, ?_, ?_⟩
  · apply round1_nonneg
    apply mul_nonneg
    · split
      · positivity
      · exact le_refl 0
    · unfold w_geofence; norm_num
  · have hfrac : (if wps.length > 0 then
        ((cs.countP inBounds : ℚ)) / (wps.length : ℚ) else 0) ≤ 1 := by
      split
      · rename_i h
        rw [div_le_one (by exact_mod_cast h)]
        have hc : cs.countP inBounds ≤ cs.length := cs.countP_le_length _
        have hlen : cs.length = wps.length := mapM_pointCoords_length hm
        exact_mod_cast hlen ▸ hc
      · norm_num
    have harg : (if wps.length > 0 then
        ((cs.countP inBounds : ℚ)) / (wps.length : ℚ) else 0) * w_geofence ≤
        ((15 : ℕ) : ℚ) := by
      have h0 : (0 : ℚ) ≤ (if wps.length > 0 then
          ((cs.countP inBounds : ℚ)) / (wps.length : ℚ) else 0) := by
        split
        · positivity
        · exact le_refl 0
      unfold w_geofence
      push_cast
      nlinarith
    have h4 := round1_le_nat _ 15 harg
    unfold w_geofence
    simpa using h4

theorem efficiency_spec (hav : Coord → Coord → ℚ)
    (hnn : ∀ p q, 0 ≤ hav p q) (wps : List (List ℚ)) (cs : List Coord)
    (hm : wps.mapM pointCoords = some cs) :
    ∃ c, _check_efficiency hav wps = some c ∧ c.max = w_route_efficiency ∧
      0 ≤ c.score ∧ c.score ≤ w_route_efficiency := by
  unfold _check_efficiency
  split
  · exact ⟨_, rfl, rfl, le_refl 0, by unfold w_route_efficiency; norm_num⟩
  · rw [hm]
    refine ⟨_, rfl, rfl, ?_, ?_⟩
    · apply round1_nonneg
      apply mul_nonneg
      · exact effScoreFrac_nonneg _ (effQuot_nonneg _ _ (hnn _ _))
      · unfold w_route_efficiency; norm_num
    · have h1 := effScoreFrac_le_one
        (effQuot (directDistance hav cs) (pathDistance hav cs))
      have h0 := effScoreFrac_nonneg
        (effQuot (directDistance hav cs) (pathDistance hav cs))
        (effQuot_nonneg _ _ (hnn _ _))
      have harg : effScoreFrac
          (effQuot (directDistance hav cs) (pathDistance hav cs)) *
          w_route_efficiency ≤ ((20 : ℕ) : ℚ) := by
        unfold w_route_efficiency
        push_cast
        nlinarith
      have h4 := round1_le_nat _ 20 harg
      unfold w_route_efficiency
      simpa using h4

theorem speed_spec (hav : Coord → Coord → ℚ) (rd : RouteData)
    (wps : List (List ℚ)) (cs : List Coord)
    (hm : wps.mapM pointCoords = some cs) :
    ∃ c, _check_speed hav rd wps = some c ∧ c.max = w_speed_sanity ∧
      0 ≤ c.score ∧ c.score ≤ w_speed_sanity := by
  unfold _check_speed
  rw [hm]
  refine ⟨_, rfl, rfl, ?_, ?_⟩
  · apply round1_nonneg
    apply mul_nonneg
    · have h1 := distComp_nonneg (extract_number (rd.total_distance.getD "0"))
        (pathDistance hav cs)
      have h2 := speedComp_nonneg (extract_number (rd.total_distance.getD "0"))
        (extract_number (rd.estimated_time.getD "0"))
      linarith
    · unfold w_speed_sanity; norm_num
  · have h1 := distComp_le_half (extract_number (rd.total_distance.getD "0"))
      (pathDistance hav cs)
    have h2 := speedComp_le_half (extract_number (rd.total_distance.getD "0"))
      (extract_number (rd.estimated_time.getD "0"))
    have h1n := distComp_nonneg (extract_number (rd.total_distance.getD "0"))
      (pathDistance hav cs)
    have h2n := speedComp_nonneg (extract_number (rd.total_distance.getD "0"))
      (extract_number (rd.estimated_time.getD "0"))
    have harg : (distComp (extract_number (rd.total_distance.getD "0"))
        (pathDistance hav cs) +
        speedComp (extract_number (rd.total_distance.getD "0"))
        (extract_number (rd.estimated_time.getD "0"))) * w_speed_sanity ≤
        ((20 : ℕ) : ℚ) := by
      unfold w_speed_sanity
      push_cast
      nlinarith
    have h4 := round1_le_nat _ 20 harg
    unfold w_speed_sanity
    simpa using h4

theorem ep_spec (hav : Coord → Coord → ℚ) (events : List Event)
    (rd : RouteData) (wps : List (List ℚ)) (cs : List Coord)
    (hm : wps.mapM pointCoords = some cs) :
    ∃ c, _check_event_proximity hav events rd wps = some c ∧
      c.max = w_event_proximity ∧ 0 ≤ c.score ∧ c.score ≤ w_event_proximity := by
  unfold _check_event_proximity
  dsimp only
  by_cases h1 : (geocodedEvents events).isEmpty = true
  · rw [if_pos h1]
    exact ⟨_, rfl, rfl, by unfold w_event_proximity; norm_num,
      by unfold w_event_proximity; norm_num⟩
  · rw [if_neg h1]
    have hne : (geocodedEvents events).isEmpty ≠ true := h1
    by_cases h2 : (rd.local_events.isEmpty && rd.points_of_interest.isEmpty) = true
    · rw [if_pos h2]
      exact ⟨_, rfl, rfl, by unfold w_event_proximity; norm_num,
        by unfold w_event_proximity; norm_num⟩
    · rw [if_neg h2, hm]
      refine ⟨_, rfl, rfl, ?_, ?_⟩
      · apply round1_nonneg
        apply mul_nonneg
        · positivity
        · unfold w_event_proximity; norm_num
      · have hlen : 0 < (geocodedEvents events).length := by
          rw [List.length_pos]
          intro hcon
          exact hne (by rw [hcon]; rfl)
        have hfrac : ((geocodedEvents events).countP (nearEvent hav cs) : ℚ) /
            ((geocodedEvents events).length : ℚ) ≤ 1 := by
          rw [div_le_one (by exact_mod_cast hlen)]
          exact_mod_cast (geocodedEvents events).countP_le_length _
        have hfrac0 : (0 : ℚ) ≤
            ((geocodedEvents events).countP (nearEvent hav cs) : ℚ) /
            ((geocodedEvents events).length : ℚ) := by positivity
        have harg : ((geocodedEvents events).countP (nearEvent hav cs) : ℚ) /
            ((geocodedEvents events).length : ℚ) * w_event_proximity ≤
            ((25 : ℕ) : ℚ) := by
          unfold w_event_proximity
          push_cast
          nlinarith
        have h4 := round1_le_nat _ 25 harg
        unfold w_event_proximity
        simpa using h4

/-- Sum of the individual check scores recorded in a report. -/
def sumScores (checks : List (String × CheckResult)) : ℚ :=
  (checks.map (fun c => c.2.score)).sum

theorem score_route_spec (hav : Coord → Coord → ℚ) (hnn : ∀ p q, 0 ≤ hav p q)
    (events : List Event) (rd : RouteData) (cs : List Coord)
    (hm : rd.waypoints.mapM pointCoords = some cs)
    (hlen : 2 ≤ rd.waypoints.length) :
    ∃ rep : Report,
      score_route hav events rd = some (rep.total_score, rep) ∧
      rep.max_score = 100 ∧
      rep.checks.map Prod.fst =
        ["completeness", "waypoint_quality", "geofence", "route_efficiency",
         "speed_sanity", "event_proximity"] ∧
      rep.checks.map (fun c => c.2.max) = [w_completeness, w_waypoint_quality,
        w_geofence, w_route_efficiency, w_speed_sanity, w_event_proximity] ∧
      (∀ c ∈ rep.checks, 0 ≤ c.2.score ∧ c.2.score ≤ c.2.max) ∧
      0 ≤ sumScores rep.checks ∧ sumScores rep.checks ≤ 100 ∧
      rep.total_score = int_py (sumScores rep.checks) ∧
      rep.summary = bandOfTotal (sumScores rep.checks) := by
  obtain ⟨c2, h2, h2m, h2a, h2b⟩ := wq_spec hav rd.waypoints cs hm
  obtain ⟨c3, h3, h3m, h3a, h3b⟩ := geofence_spec rd.waypoints cs hm
  obtain ⟨c4, h4, h4m, h4a, h4b⟩ := efficiency_spec hav hnn rd.waypoints cs hm
  obtain ⟨c5, h5, h5m, h5a, h5b⟩ := speed_spec hav rd rd.waypoints cs hm
  obtain ⟨c6, h6, h6m, h6a, h6b⟩ := ep_spec hav events rd rd.waypoints cs hm
  obtain ⟨h1m, h1a, h1b⟩ := completeness_spec rd
  have hw1 : w_completeness = 10 := rfl
  have hw2 : w_waypoint_quality = 10 := rfl
  have hw3 : w_geofence = 15 := rfl
  have hw4 : w_route_efficiency = 20 := rfl
  have hw5 : w_speed_sanity = 20 := rfl
  have hw6 : w_event_proximity = 25 := rfl
  unfold score_route
  rw [if_neg (by omega)]
  rw [h2, h3, h4, h5, h6]
  set c1 := _check_completeness rd with hc1
  have hsum : sumScores [("completeness", c1), ("waypoint_quality", c2),
      ("geofence", c3), ("route_efficiency", c4), ("speed_sanity", c5),
      ("event_proximity", c6)] =
      c1.score + c2.score + c3.score + c4.score + c5.score + c6.score := by
    simp [sumScores]
    ring
  refine ⟨⟨int_py (c1.score + c2.score + c3.score + c4.score +
      c5.score + c6.score), 100,
      [("completeness", c1), ("waypoint_quality", c2),
        ("geofence", c3), ("route_efficiency", c4), ("speed_sanity", c5),
        ("event_proximity", c6)],
      c1.warnings ++ c2.warnings ++ c3.warnings ++ c4.warnings ++
        c5.warnings ++ c6.warnings,
      bandOfTotal (c1.score + c2.score + c3.score + c4.score +
        c5.score + c6.score)⟩, rfl, rfl, rfl, ?_, ?_, ?_, ?_, ?_, ?_⟩
  · simp only [List.map]
    rw [h1m, h2m, h3m, h4m, h5m, h6m]
  · intro c hc
    simp only [List.mem_cons, List.not_mem_nil, or_false] at hc
    rcases hc with h | h | h | h | h | h <;> subst h <;> dsimp only
    · exact ⟨h1a, by rw [h1m]; exact h1b⟩
    · exact ⟨h2a, by rw [h2m]; exact h2b⟩
    · exact ⟨h3a, by rw [h3m]; exact h3b⟩
    · exact ⟨h4a, by rw [h4m]; exact h4b⟩
    · exact ⟨h5a, by rw [h5m]; exact h5b⟩
    · exact ⟨h6a, by rw [h6m]; exact h6b⟩
  · rw [hsum]
    linarith
  · rw [hsum]
    rw [hw1] at h1b; rw [hw2] at h2b; rw [hw3] at h3b; rw [hw4] at h4b
    rw [hw5] at h5b; rw [hw6] at h6b
    linarith
  · dsimp only
    rw [hsum]
  · dsimp only
    rw [hsum]

/-! ### Concrete instances used to witness the theorems -/

/-- A simple concrete nonnegative distance function (rectilinear degree
distance) used to instantiate the abstract haversine core in witnesses. -/
def flatDist : Coord → Coord → ℚ := fun p q => |p.1 - q.1| + |p.2 - q.2|

theorem flatDist_nonneg : ∀ p q, 0 ≤ flatDist p q := by
  intro p q
  unfold flatDist
  positivity

/-- A complete, well-formed two-waypoint route inside the Athens box. -/
def routeA : RouteData :=
  { waypoints := [[39.3, -82.1], [39.31, -82.1]]
    total_distance := some "0.01 miles"
    estimated_time := some "0.2 minutes"
    route_description := some "a walk"
    points_of_interest := ["court street"]
    local_events := ["farmers market"] }

/-- A route with no waypoints at all. -/
def routeEmpty : RouteData := { waypoints := [] }

/-- The summary band as a function of the integer total score, with the
inclusive lower bounds named by the spec. -/
def summaryBandZ (t : ℤ) : String :=
  if 80 ≤ t then "Good quality route"
  else if 60 ≤ t then "Acceptable route with some issues"
  else if 40 ≤ t then "Poor quality route - review warnings"
  else "Low quality route - significant issues"

theorem bandOfTotal_eq_summaryBandZ (S : ℚ) (h0 : 0 ≤ S) :
    bandOfTotal S = summaryBandZ (int_py S) := by
  rw [int_py_of_nonneg S h0]
  have h80 : (80 : ℤ) ≤ ⌊S⌋ ↔ (80 : ℚ) ≤ S := by
    rw [Int.le_floor]; norm_num
  have h60 : (60 : ℤ) ≤ ⌊S⌋ ↔ (60 : ℚ) ≤ S := by
    rw [Int.le_floor]; norm_num
  have h40 : (40 : ℤ) ≤ ⌊S⌋ ↔ (40 : ℚ) ≤ S := by
    rw [Int.le_floor]; norm_num
  unfold bandOfTotal summaryBandZ
  by_cases hc80 : (80 : ℚ) ≤ S
  · rw [if_pos (show S ≥ 80 from hc80), if_pos (h80.mpr hc80)]
  · rw [if_neg (show ¬S ≥ 80 from hc80), if_neg (fun hc => hc80 (h80.mp hc))]
    by_cases hc60 : (60 : ℚ) ≤ S
    · rw [if_pos (show S ≥ 60 from hc60), if_pos (h60.mpr hc60)]
    · rw [if_neg (show ¬S ≥ 60 from hc60), if_neg (fun hc => hc60 (h60.mp hc))]
      by_cases hc40 : (40 : ℚ) ≤ S
      · rw [if_pos (show S ≥ 40 from hc40), if_pos (h40.mpr hc40)]
      · rw [if_neg (show ¬S ≥ 40 from hc40),
          if_neg (fun hc => hc40 (h40.mp hc))]

/-- Modelled from the spec sentence for claim C1: the total as the sum of
the check scores rounded to the nearest integer and clamped to the
interval 0 to 100. -/
def specTotalScore (s : ℚ) : ℤ := min 100 (max 0 (roundHalfEven s))

/-! ### The claims -/

/-- C1 (counterexample): on a concrete well-formed route the check scores
sum to 75.5; `score_route` returns 75 (truncation), while the sum
integer-rounded to the nearest integer and clamped to the interval 0 to
100 is 76, so the claimed description of `total_score` fails. -/
theorem C1_counterexample :
    (score_route flatDist [] routeA).map (fun tr => tr.1) = some 75 ∧
    (score_route flatDist [] routeA).map (fun tr => sumScores tr.2.checks) =
      some (151 / 2 : ℚ) ∧
    specTotalScore (151 / 2) = 76 ∧ (75 : ℤ) ≠ 76 := by
  refine ⟨by with_unfolding_all decide, by with_unfolding_all decide,
    by with_unfolding_all decide, by decide⟩

/-- C1 (amended): for every route with at least 2 well-formed waypoints,
the returned total score equals the sum of the six check scores truncated
toward zero (Python `int`), and it already lies in the interval 0 to 100,
so the clamp the spec mentions never changes it. -/
theorem C1_total_score_truncated (hav : Coord → Coord → ℚ)
    (hnn : ∀ p q, 0 ≤ hav p q) (events : List Event) (rd : RouteData)
    (cs : List Coord) (hm : rd.waypoints.mapM pointCoords = some cs)
    (hlen : 2 ≤ rd.waypoints.length) :
    ∃ t rep, score_route hav events rd = some (t, rep) ∧
      t = int_py (sumScores rep.checks) ∧ 0 ≤ t ∧ t ≤ 100 := by
  obtain ⟨rep, he, _, _, _, _, hs0, hs1, hts, _⟩ :=
    score_route_spec hav hnn events rd cs hm hlen
  refine ⟨rep.total_score, rep, he, hts, ?_, ?_⟩
  · rw [hts]
    exact int_py_nonneg _ hs0
  · rw [hts]
    have h := int_py_le_nat _ 100 hs0 (by exact_mod_cast hs1)
    exact_mod_cast h

theorem C1_witness :
    ∃ t rep, score_route flatDist [] routeA = some (t, rep) ∧
      t = int_py (sumScores rep.checks) ∧ 0 ≤ t ∧ t ≤ 100 :=
  C1_total_score_truncated flatDist flatDist_nonneg [] routeA
    [(39.3, -82.1), (39.31, -82.1)] rfl (by decide)

/-- C2: when the waypoints are absent, empty, or a single point (fewer
than 2 entries), `score_route` short-circuits to total score 0 with a
report whose warnings are exactly the critical message and whose checks
mapping is empty. -/
theorem C2_fatal_short_circuit (hav : Coord → Coord → ℚ)
    (events : List Event) (rd : RouteData)
    (hlen : rd.waypoints.length < 2) :
    score_route hav events rd =
      some (0, { total_score := 0, max_score := 100, checks := [],
                 warnings := ["CRITICAL: No valid waypoints found"],
                 summary := "Route failed - no waypoints" }) := by
  unfold score_route
  rw [if_pos hlen]
  rfl

theorem C2_witness :
    score_route flatDist [] routeEmpty =
      some (0, { total_score := 0, max_score := 100, checks := [],
                 warnings := ["CRITICAL: No valid waypoints found"],
                 summary := "Route failed - no waypoints" }) :=
  C2_fatal_short_circuit flatDist [] routeEmpty (by decide)

/-- C3: for every route with at least 2 well-formed waypoints, every
check result in the report satisfies 0 ≤ score ≤ max, the maxes are the
default weights (summing to 100), and the total score lies in 0 to 100. -/
theorem C3_score_bounds (hav : Coord → Coord → ℚ)
    (hnn : ∀ p q, 0 ≤ hav p q) (events : List Event) (rd : RouteData)
    (cs : List Coord) (hm : rd.waypoints.mapM pointCoords = some cs)
    (hlen : 2 ≤ rd.waypoints.length) :
    ∃ t rep, score_route hav events rd = some (t, rep) ∧
      (∀ c ∈ rep.checks, 0 ≤ c.2.score ∧ c.2.score ≤ c.2.max) ∧
      rep.checks.map (fun c => c.2.max) = [10, 10, 15, 20, 20, 25] ∧
      0 ≤ t ∧ t ≤ 100 := by
  obtain ⟨rep, he, _, _, hmax, hrange, hs0, hs1, hts, _⟩ :=
    score_route_spec hav hnn events rd cs hm hlen
  refine ⟨rep.total_score, rep, he, hrange, hmax, ?_, ?_⟩
  · rw [hts]
    exact int_py_nonneg _ hs0
  · rw [hts]
    have h := int_py_le_nat _ 100 hs0 (by exact_mod_cast hs1)
    exact_mod_cast h

theorem C3_witness :
    ∃ t rep, score_route flatDist [] routeA = some (t, rep) ∧
      (∀ c ∈ rep.checks, 0 ≤ c.2.score ∧ c.2.score ≤ c.2.max) ∧
      rep.checks.map (fun c => c.2.max) = [10, 10, 15, 20, 20, 25] ∧
      0 ≤ t ∧ t ≤ 100 :=
  C3_score_bounds flatDist flatDist_nonneg [] routeA
    [(39.3, -82.1), (39.31, -82.1)] rfl (by decide)

/-- C4 (counterexample): for the empty route the summary is the fixed
failure string, which is none of the four band strings, so the claim that
the summary is always one of the four bands fails. -/
theorem C4_counterexample :
    (score_route flatDist [] routeEmpty).map (fun tr => tr.2.summary) =
      some "Route failed - no waypoints" ∧
    "Route failed - no waypoints" ∉
      ["Good quality route", "Acceptable route with some issues",
       "Poor quality route - review warnings",
       "Low quality route - significant issues"] := by
  refine ⟨rfl, by decide⟩

/-- C4 (amended): for every route with at least 2 well-formed waypoints
the summary is the band string selected from the integer total score with
inclusive lower bounds 80, 60 and 40; the fatal path instead produces the
fixed string named in `C4_counterexample`. -/
theorem C4_summary_bands (hav : Coord → Coord → ℚ)
    (hnn : ∀ p q, 0 ≤ hav p q) (events : List Event) (rd : RouteData)
    (cs : List Coord) (hm : rd.waypoints.mapM pointCoords = some cs)
    (hlen : 2 ≤ rd.waypoints.length) :
    ∃ t rep, score_route hav events rd = some (t, rep) ∧
      rep.summary = summaryBandZ t := by
  obtain ⟨rep, he, _, _, _, _, hs0, _, hts, hsum⟩ :=
    score_route_spec hav hnn events rd cs hm hlen
  refine ⟨rep.total_score, rep, he, ?_⟩
  rw [hsum, hts]
  exact bandOfTotal_eq_summaryBandZ _ hs0

theorem C4_witness :
    ∃ t rep, score_route flatDist [] routeA = some (t, rep) ∧
      rep.summary = summaryBandZ t :=
  C4_summary_bands flatDist flatDist_nonneg [] routeA
    [(39.3, -82.1), (39.31, -82.1)] rfl (by decide)

/-- C5: for a route with at least 2 well-formed waypoints the efficiency
check forms the quotient direct distance over path distance when both are
positive and scores full weight for a quotient between 0.25 and 0.85,
0.8 of the weight above 0.85, and (quotient / 0.25) * 0.6 of the weight
(rounded to one decimal like every check score) with a zigzag warning
below 0.25; a zero direct distance is treated as a circular route scoring
the neutral quotient 0.5 (hence full weight) with a detail note. -/
theorem C5_efficiency_policy (hav : Coord → Coord → ℚ)
    (hnn : ∀ p q, 0 ≤ hav p q) (wps : List (List ℚ)) (cs : List Coord)
    (hm : wps.mapM pointCoords = some cs) (hlen : 2 ≤ wps.length) :
    ∃ c, _check_efficiency hav wps = some c ∧ c.max = w_route_efficiency ∧
      (0 < directDistance hav cs → 0 < pathDistance hav cs →
        ((0.25 ≤ directDistance hav cs / pathDistance hav cs ∧
            directDistance hav cs / pathDistance hav cs ≤ 0.85) →
          c.score = w_route_efficiency) ∧
        (0.85 < directDistance hav cs / pathDistance hav cs →
          c.score = 0.8 * w_route_efficiency) ∧
        (directDistance hav cs / pathDistance hav cs < 0.25 →
          c.score = round1 (directDistance hav cs / pathDistance hav cs /
            0.25 * 0.6 * w_route_efficiency) ∧
          "Route appears to zigzag excessively" ∈ c.warnings)) ∧
      (directDistance hav cs = 0 →
        c.score = w_route_efficiency ∧ "Circular route detected" ∈ c.details) := by
  unfold _check_efficiency
  rw [if_neg (by omega), hm]
  refine ⟨_, rfl, rfl, ?_, ?_⟩
  · intro hd hp
    have he : effQuot (directDistance hav cs) (pathDistance hav cs) =
        directDistance hav cs / pathDistance hav cs := by
      unfold effQuot
      rw [if_pos hd, if_pos hp]
    refine ⟨?_, ?_, ?_⟩
    · intro hin
      dsimp only
      rw [he]
      unfold effScoreFrac
      rw [if_pos hin]
      with_unfolding_all decide
    · intro hgt
      have hni : ¬(0.25 ≤ directDistance hav cs / pathDistance hav cs ∧
          directDistance hav cs / pathDistance hav cs ≤ 0.85) :=
        fun hc => absurd hgt (not_lt.mpr hc.2)
      dsimp only
      rw [he]
      unfold effScoreFrac
      rw [if_neg hni, if_pos hgt]
      with_unfolding_all decide
    · intro hlt
      have hni : ¬(0.25 ≤ directDistance hav cs / pathDistance hav cs ∧
          directDistance hav cs / pathDistance hav cs ≤ 0.85) :=
        fun hc => absurd hlt (not_lt.mpr hc.1)
      have hng : ¬(directDistance hav cs / pathDistance hav cs > 0.85) :=
        not_lt.mpr (le_of_lt (lt_trans hlt (by norm_num)))
      constructor
      · dsimp only
        rw [he]
        unfold effScoreFrac
        rw [if_neg hni, if_neg hng, if_pos hlt]
      · dsimp only
        rw [he, if_neg hni, if_neg hng, if_pos hlt]
        simp
  · intro hd0
    have hnd : ¬(directDistance hav cs > 0) := by
      rw [hd0]
      exact lt_irrefl 0
    have he : effQuot (directDistance hav cs) (pathDistance hav cs) = 0.5 := by
      unfold effQuot
      rw [if_neg hnd]
    constructor
    · dsimp only
      rw [he]
      unfold effScoreFrac
      rw [if_pos (by norm_num)]
      with_unfolding_all decide
    · dsimp only
      rw [if_neg hnd]
      simp

theorem C5_witness :
    ∃ c, _check_efficiency flatDist [[0, 0], [3, 4]] = some c ∧
      c.max = w_route_efficiency ∧
      (0 < directDistance flatDist [(0, 0), (3, 4)] →
        0 < pathDistance flatDist [(0, 0), (3, 4)] →
        ((0.25 ≤ directDistance flatDist [(0, 0), (3, 4)] /
            pathDistance flatDist [(0, 0), (3, 4)] ∧
            directDistance flatDist [(0, 0), (3, 4)] /
            pathDistance flatDist [(0, 0), (3, 4)] ≤ 0.85) →
          c.score = w_route_efficiency) ∧
        (0.85 < directDistance flatDist [(0, 0), (3, 4)] /
            pathDistance flatDist [(0, 0), (3, 4)] →
          c.score = 0.8 * w_route_efficiency) ∧
        (directDistance flatDist [(0, 0), (3, 4)] /
            pathDistance flatDist [(0, 0), (3, 4)] < 0.25 →
          c.score = round1 (directDistance flatDist [(0, 0), (3, 4)] /
            pathDistance flatDist [(0, 0), (3, 4)] /
            0.25 * 0.6 * w_route_efficiency) ∧
          "Route appears to zigzag excessively" ∈ c.warnings)) ∧
      (directDistance flatDist [(0, 0), (3, 4)] = 0 →
        c.score = w_route_efficiency ∧
          "Circular route detected" ∈ c.details) :=
  C5_efficiency_policy flatDist flatDist_nonneg [[0, 0], [3, 4]]
    [(0, 0), (3, 4)] rfl (by norm_num)

/-- Every possible speed-sanity score is already a multiple of one tenth,
so the final one-decimal rounding is exact. -/
theorem speed_score_exact (cd ct ad : ℚ) :
    round1 ((distComp cd ad + speedComp cd ct) * w_speed_sanity) =
    (distComp cd ad + speedComp cd ct) * w_speed_sanity := by
  unfold distComp speedComp
  repeat' split
  all_goals with_unfolding_all decide

/-- C6: the speed check scores the sum of a distance-accuracy component
and a speed component, each worth half the weight: the distance part is
full half-credit when the relative error of the claimed distance is at
most 20 percent, 60 percent of half-credit up to 50 percent, else zero
with a warning naming both values; the speed part exists only when both
claimed values are positive and gives full half-credit for an implied
speed between 1.5 and 4.5 mph, 60 percent of half-credit below 1.5,
60 percent of half-credit with a jogging warning up to 6.0 mph, else zero
with an unrealistic-for-walking warning. -/
theorem C6_speed_policy (hav : Coord → Coord → ℚ) (rd : RouteData)
    (wps : List (List ℚ)) (cs : List Coord)
    (hm : wps.mapM pointCoords = some cs) :
    ∃ c, _check_speed hav rd wps = some c ∧ c.max = w_speed_sanity ∧
      c.score = (distComp (extract_number (rd.total_distance.getD "0"))
          (pathDistance hav cs) +
        speedComp (extract_number (rd.total_distance.getD "0"))
          (extract_number (rd.estimated_time.getD "0"))) * w_speed_sanity ∧
      (∀ cd ad, 0 < cd → relErr cd ad ≤ 0.2 → distComp cd ad = 0.5) ∧
      (∀ cd ad, 0 < cd → 0.2 < relErr cd ad → relErr cd ad ≤ 0.5 →
        distComp cd ad = 0.3) ∧
      (∀ cd ad, 0 < cd → 0.5 < relErr cd ad → distComp cd ad = 0) ∧
      (0 < extract_number (rd.total_distance.getD "0") →
        0.5 < relErr (extract_number (rd.total_distance.getD "0"))
          (pathDistance hav cs) →
        distanceMismatchMsg (extract_number (rd.total_distance.getD "0"))
          (pathDistance hav cs) ∈ c.warnings) ∧
      (∀ cd ct, ¬(0 < ct ∧ 0 < cd) → speedComp cd ct = 0) ∧
      (∀ cd ct, 0 < ct → 0 < cd → min_walk_speed ≤ impliedSpeed cd ct →
        impliedSpeed cd ct ≤ max_walk_speed → speedComp cd ct = 0.5) ∧
      (∀ cd ct, 0 < ct → 0 < cd → impliedSpeed cd ct < min_walk_speed →
        speedComp cd ct = 0.3) ∧
      (∀ cd ct, 0 < ct → 0 < cd → max_walk_speed < impliedSpeed cd ct →
        impliedSpeed cd ct ≤ 6.0 → speedComp cd ct = 0.3) ∧
      (0 < extract_number (rd.estimated_time.getD "0") →
        0 < extract_number (rd.total_distance.getD "0") →
        max_walk_speed < impliedSpeed (extract_number (rd.total_distance.getD "0"))
          (extract_number (rd.estimated_time.getD "0")) →
        impliedSpeed (extract_number (rd.total_distance.getD "0"))
          (extract_number (rd.estimated_time.getD "0")) ≤ 6.0 →
        joggingMsg (impliedSpeed (extract_number (rd.total_distance.getD "0"))
          (extract_number (rd.estimated_time.getD "0"))) ∈ c.warnings) ∧
      (∀ cd ct, 0 < ct → 0 < cd → 6.0 < impliedSpeed cd ct →
        speedComp cd ct = 0) ∧
      (0 < extract_number (rd.estimated_time.getD "0") →
        0 < extract_number (rd.total_distance.getD "0") →
        6.0 < impliedSpeed (extract_number (rd.total_distance.getD "0"))
          (extract_number (rd.estimated_time.getD "0")) →
        unrealisticMsg (impliedSpeed (extract_number (rd.total_distance.getD "0"))
          (extract_number (rd.estimated_time.getD "0"))) ∈ c.warnings) := by
  have hminmax : min_walk_speed ≤ max_walk_speed := by
    unfold min_walk_speed max_walk_speed
    norm_num
  unfold _check_speed
  rw [hm]
  refine ⟨_, rfl, rfl, ?_, ?_, ?_, ?_, ?_, ?_, ?_, ?_, ?_, ?_, ?_, ?_⟩
  · dsimp only
    exact speed_score_exact _ _ _
  · intro cd ad h1 h2
    unfold distComp
    rw [if_pos h1, if_pos h2]
  · intro cd ad h1 h2 h3
    unfold distComp
    rw [if_pos h1, if_neg (not_le.mpr h2), if_pos h3]
  · intro cd ad h1 h2
    unfold distComp
    rw [if_pos h1, if_neg (not_le.mpr (lt_trans (by norm_num) h2)),
      if_neg (not_le.mpr h2)]
  · intro h1 h2
    dsimp only
    apply List.mem_append_left
    rw [if_pos h1, if_neg (not_le.mpr h2)]
    exact List.mem_singleton_self _
  · intro cd ct h
    unfold speedComp
    rw [if_neg h]
  · intro cd ct h1 h2 h3 h4
    unfold speedComp
    rw [if_pos ⟨h1, h2⟩, if_pos ⟨h3, h4⟩]
  · intro cd ct h1 h2 h3
    unfold speedComp
    rw [if_pos ⟨h1, h2⟩,
      if_neg (fun hc => absurd h3 (not_lt.mpr hc.1)), if_pos h3]
  · intro cd ct h1 h2 h3 h4
    unfold speedComp
    rw [if_pos ⟨h1, h2⟩,
      if_neg (fun hc => absurd h3 (not_lt.mpr hc.2)),
      if_neg (not_lt.mpr (le_of_lt (lt_of_le_of_lt hminmax h3))),
      if_pos h4]
  · intro h1 h2 h3 h4
    dsimp only
    apply List.mem_append_right
    rw [if_pos ⟨h1, h2⟩,
      if_neg (fun hc => absurd h3 (not_lt.mpr hc.2)),
      if_neg (not_lt.mpr (le_of_lt (lt_of_le_of_lt hminmax h3))),
      if_pos h4]
    exact List.mem_singleton_self _
  · intro cd ct h1 h2 h3
    have h3' : max_walk_speed < impliedSpeed cd ct := by
      apply lt_trans ?_ h3
      unfold max_walk_speed
      norm_num
    unfold speedComp
    rw [if_pos ⟨h1, h2⟩,
      if_neg (fun hc => absurd h3' (not_lt.mpr hc.2)),
      if_neg (not_lt.mpr (le_of_lt (lt_of_le_of_lt hminmax h3'))),
      if_neg (not_le.mpr h3)]
  · intro h1 h2 h3
    have h3' : max_walk_speed < impliedSpeed
        (extract_number (rd.total_distance.getD "0"))
        (extract_number (rd.estimated_time.getD "0")) := by
      apply lt_trans ?_ h3
      unfold max_walk_speed
      norm_num
    dsimp only
    apply List.mem_append_right
    rw [if_pos ⟨h1, h2⟩,
      if_neg (fun hc => absurd h3' (not_lt.mpr hc.2)),
      if_neg (not_lt.mpr (le_of_lt (lt_of_le_of_lt hminmax h3'))),
      if_neg (not_le.mpr h3)]
    exact List.mem_singleton_self _

theorem C6_witness :
    ∃ c, _check_speed flatDist routeA routeA.waypoints = some c ∧
      c.max = w_speed_sanity ∧
      c.score = (distComp (extract_number (routeA.total_distance.getD "0"))
          (pathDistance flatDist [(39.3, -82.1), (39.31, -82.1)]) +
        speedComp (extract_number (routeA.total_distance.getD "0"))
          (extract_number (routeA.estimated_time.getD "0"))) * w_speed_sanity ∧
      (∀ cd ad, 0 < cd → relErr cd ad ≤ 0.2 → distComp cd ad = 0.5) ∧
      (∀ cd ad, 0 < cd → 0.2 < relErr cd ad → relErr cd ad ≤ 0.5 →
        distComp cd ad = 0.3) ∧
      (∀ cd ad, 0 < cd → 0.5 < relErr cd ad → distComp cd ad = 0) ∧
      (0 < extract_number (routeA.total_distance.getD "0") →
        0.5 < relErr (extract_number (routeA.total_distance.getD "0"))
          (pathDistance flatDist [(39.3, -82.1), (39.31, -82.1)]) →
        distanceMismatchMsg (extract_number (routeA.total_distance.getD "0"))
          (pathDistance flatDist [(39.3, -82.1), (39.31, -82.1)]) ∈ c.warnings) ∧
      (∀ cd ct, ¬(0 < ct ∧ 0 < cd) → speedComp cd ct = 0) ∧
      (∀ cd ct, 0 < ct → 0 < cd → min_walk_speed ≤ impliedSpeed cd ct →
        impliedSpeed cd ct ≤ max_walk_speed → speedComp cd ct = 0.5) ∧
      (∀ cd ct, 0 < ct → 0 < cd → impliedSpeed cd ct < min_walk_speed →
        speedComp cd ct = 0.3) ∧
      (∀ cd ct, 0 < ct → 0 < cd → max_walk_speed < impliedSpeed cd ct →
        impliedSpeed cd ct ≤ 6.0 → speedComp cd ct = 0.3) ∧
      (0 < extract_number (routeA.estimated_time.getD "0") →
        0 < extract_number (routeA.total_distance.getD "0") →
        max_walk_speed < impliedSpeed
          (extract_number (routeA.total_distance.getD "0"))
          (extract_number (routeA.estimated_time.getD "0")) →
        impliedSpeed (extract_number (routeA.total_distance.getD "0"))
          (extract_number (routeA.estimated_time.getD "0")) ≤ 6.0 →
        joggingMsg (impliedSpeed (extract_number (routeA.total_distance.getD "0"))
          (extract_number (routeA.estimated_time.getD "0"))) ∈ c.warnings) ∧
      (∀ cd ct, 0 < ct → 0 < cd → 6.0 < impliedSpeed cd ct →
        speedComp cd ct = 0) ∧
      (0 < extract_number (routeA.estimated_time.getD "0") →
        0 < extract_number (routeA.total_distance.getD "0") →
        6.0 < impliedSpeed (extract_number (routeA.total_distance.getD "0"))
          (extract_number (routeA.estimated_time.getD "0")) →
        unrealisticMsg (impliedSpeed
          (extract_number (routeA.total_distance.getD "0"))
          (extract_number (routeA.estimated_time.getD "0"))) ∈ c.warnings) :=
  C6_speed_policy flatDist routeA routeA.waypoints
    [(39.3, -82.1), (39.31, -82.1)] rfl

theorem truthyQ_iff (o : Option ℚ) :
    truthyQ o = true ↔ ∃ q, o = some q ∧ q ≠ 0 := by
  cases o <;> simp [truthyQ]

/-- An event whose latitude is exactly zero: geocoded, both coordinates
present, yet excluded by the Python truthiness test. -/
def evZero : Event :=
  { name := "Night Market", lat := some 0, lon := some (-82), geocoded := true }

/-- A well-geocoded event with nonzero coordinates. -/
def evGood : Event :=
  { name := "Uptown Concert", lat := some 39, lon := some (-82), geocoded := true }

/-- C7 (counterexample): `evZero` is geocoded and has both coordinates
present, but the filter drops it, so the event-proximity check reports
that there are no geocoded events at all instead of counting it. -/
theorem C7_counterexample :
    evZero.geocoded = true ∧ evZero.lat.isSome = true ∧
    evZero.lon.isSome = true ∧ geocodedEvents [evZero] = [] ∧
    (_check_event_proximity flatDist [evZero] routeA
        routeA.waypoints).map (fun c => c.details) =
      some ["No geocoded events to verify against"] := by
  refine ⟨rfl, rfl, rfl, by with_unfolding_all rfl, by with_unfolding_all rfl⟩

/-- C7 (amended): an event participates in proximity scoring if and only
if its geocoded flag is true and both coordinates are present and
nonzero (Python truthiness); in the scoring branch the check records
exactly one PASS/MISS line per participating event. -/
theorem C7_participation (events : List Event) :
    (∀ e ∈ events, (e ∈ geocodedEvents events ↔
      e.geocoded = true ∧ (∃ q, e.lat = some q ∧ q ≠ 0) ∧
        (∃ q, e.lon = some q ∧ q ≠ 0))) ∧
    (∀ (hav : Coord → Coord → ℚ) (rd : RouteData) (wps : List (List ℚ))
      (cs : List Coord), wps.mapM pointCoords = some cs →
      geocodedEvents events ≠ [] →
      (rd.local_events.isEmpty && rd.points_of_interest.isEmpty) = false →
      ∃ c, _check_event_proximity hav events rd wps = some c ∧
        c.details.length = (geocodedEvents events).length + 1) := by
  constructor
  · intro e he
    simp only [geocodedEvents, List.mem_filter, he, Bool.and_eq_true,
      truthyQ_iff, true_and]
    tauto
  · intro hav rd wps cs hm hne hguard
    have hb : (geocodedEvents events).isEmpty = false := by
      cases hge : geocodedEvents events with
      | nil => exact absurd hge hne
      | cons a t => rfl
    unfold _check_event_proximity
    dsimp only
    rw [if_neg (by simp [hb]), if_neg (by simp [hguard]), hm]
    refine ⟨_, rfl, ?_⟩
    simp

theorem C7_witness :
    evGood ∈ geocodedEvents [evGood] ∧
    ∃ c, _check_event_proximity flatDist [evGood] routeA
        routeA.waypoints = some c ∧
      c.details.length = (geocodedEvents [evGood]).length + 1 := by
  have h := C7_participation [evGood]
  refine ⟨?_, ?_⟩
  · exact (h.1 evGood (by simp)).mpr
      ⟨rfl, ⟨39, rfl, by norm_num⟩, ⟨-82, rfl, by norm_num⟩⟩
  · exact h.2 flatDist routeA routeA.waypoints
      [(39.3, -82.1), (39.31, -82.1)] rfl (by with_unfolding_all decide) rfl

/-- A route whose text fields are present but carry no parseable number,
and whose waypoint entries are one-element sequences. -/
def routeBad : RouteData :=
  { waypoints := [[39], [40]]
    total_distance := some "about two miles"
    estimated_time := some "soon"
    route_description := some "a walk" }

/-- C8 (counterexample): on `routeBad` the evaluation does not complete:
the one-element waypoints make the coordinate accesses fail (Python
raises `IndexError`), modelled by the `none` result, contradicting the
claim that malformed-but-present input always degrades gracefully. -/
theorem C8_counterexample :
    score_route flatDist [] routeBad = none := by
  with_unfolding_all rfl

/-- C8 (amended): with well-formed waypoints (at least two coordinate
components each), `score_route` completes and returns a score and report
for arbitrary, possibly malformed, text fields; malformed waypoint
entries themselves are not tolerated (see `C8_counterexample`). -/
theorem C8_no_raise_wellformed (hav : Coord → Coord → ℚ)
    (hnn : ∀ p q, 0 ≤ hav p q) (events : List Event)
    (wps : List (List ℚ)) (cs : List Coord) (td et descr : Option String)
    (poi les : List String) (hm : wps.mapM pointCoords = some cs)
    (hlen : 2 ≤ wps.length) :
    ∃ t rep, score_route hav events
      { waypoints := wps, total_distance := td, estimated_time := et,
        route_description := descr, points_of_interest := poi,
        local_events := les } = some (t, rep) := by
  obtain ⟨rep, he, _⟩ := score_route_spec hav hnn events
    { waypoints := wps, total_distance := td, estimated_time := et,
      route_description := descr, points_of_interest := poi,
      local_events := les } cs hm hlen
  exact ⟨rep.total_score, rep, he⟩

theorem C8_witness :
    ∃ t rep, score_route flatDist []
      { waypoints := [[39.3, -82.1], [39.31, -82.1]],
        total_distance := some "roughly two point five miles",
        estimated_time := some "forty five minutes",
        route_description := none, points_of_interest := [],
        local_events := [] } = some (t, rep) :=
  C8_no_raise_wellformed flatDist flatDist_nonneg []
    [[39.3, -82.1], [39.31, -82.1]] [(39.3, -82.1), (39.31, -82.1)]
    (some "roughly two point five miles") (some "forty five minutes")
    none [] [] rfl (by norm_num)

/-- C10: the event-proximity check reads the route object only through
the emptiness of its `local_events` and `points_of_interest` fields, so
two routes with the same waypoints and both fields non-empty receive
identical score, details and warnings regardless of which events they
cite. -/
theorem C10_event_contents_irrelevant (hav : Coord → Coord → ℚ)
    (events : List Event) (r1 r2 : RouteData)
    (hw : r1.waypoints = r2.waypoints)
    (h1e : r1.local_events ≠ []) (h1p : r1.points_of_interest ≠ [])
    (h2e : r2.local_events ≠ []) (h2p : r2.points_of_interest ≠ []) :
    _check_event_proximity hav events r1 r1.waypoints =
      _check_event_proximity hav events r2 r2.waypoints := by
  have g1 : (r1.local_events.isEmpty && r1.points_of_interest.isEmpty) =
      false := by
    obtain ⟨a, t, h⟩ := List.exists_cons_of_ne_nil h1e
    rw [h]
    rfl
  have g2 : (r2.local_events.isEmpty && r2.points_of_interest.isEmpty) =
      false := by
    obtain ⟨a, t, h⟩ := List.exists_cons_of_ne_nil h2e
    rw [h]
    rfl
  unfold _check_event_proximity
  dsimp only
  rw [hw, g1, g2]

theorem C10_witness :
    _check_event_proximity flatDist [evGood]
      { waypoints := [[39.3, -82.1], [39.31, -82.1]],
        points_of_interest := ["library"], local_events := ["book fair"] }
      [[39.3, -82.1], [39.31, -82.1]] =
    _check_event_proximity flatDist [evGood]
      { waypoints := [[39.3, -82.1], [39.31, -82.1]],
        points_of_interest := ["fountain", "bridge"],
        local_events := ["night market", "parade"] }
      [[39.3, -82.1], [39.31, -82.1]] :=
  C10_event_contents_irrelevant flatDist [evGood]
    { waypoints := [[39.3, -82.1], [39.31, -82.1]],
      points_of_interest := ["library"], local_events := ["book fair"] }
    { waypoints := [[39.3, -82.1], [39.31, -82.1]],
      points_of_interest := ["fountain", "bridge"],
      local_events := ["night market", "parade"] }
    rfl (by decide) (by decide) (by decide) (by decide)

/-! ### The haversine formula over the reals (claim C9)

The numeric core of `haversine_distance` is transcendental, so it is
verified here over `ℝ` with the exact formula of the source:
`a = sin²(Δlat/2) + cos(lat1)·cos(lat2)·sin²(Δlon/2)`,
`distance = R · 2 · atan2(√a, √(1−a))`, `R = 3958.8`. -/

/-- Degrees to radians (`math.radians`). -/
noncomputable def deg2rad (d : ℝ) : ℝ := d * Real.pi / 180

/-- Two-argument arctangent (`math.atan2`). -/
noncomputable def atan2 (y x : ℝ) : ℝ :=
  if 0 < x then Real.arctan (y / x)
  else if x < 0 ∧ 0 ≤ y then Real.arctan (y / x) + Real.pi
  else if x < 0 ∧ y < 0 then Real.arctan (y / x) - Real.pi
  else if x = 0 ∧ 0 < y then Real.pi / 2
  else if x = 0 ∧ y < 0 then -(Real.pi / 2)
  else 0

/-- `haversine_distance` from `evaluator.py` over the reals: great-circle
distance in miles between two (latitude, longitude) pairs in degrees. -/
noncomputable def haversine_distance (c1 c2 : ℝ × ℝ) : ℝ :=
  3958.8 * (2 * atan2
    (Real.sqrt (Real.sin ((deg2rad c2.1 - deg2rad c1.1) / 2) ^ 2 +
      Real.cos (deg2rad c1.1) * Real.cos (deg2rad c2.1) *
        Real.sin ((deg2rad c2.2 - deg2rad c1.2) / 2) ^ 2))
    (Real.sqrt (1 - (Real.sin ((deg2rad c2.1 - deg2rad c1.1) / 2) ^ 2 +
      Real.cos (deg2rad c1.1) * Real.cos (deg2rad c2.1) *
        Real.sin ((deg2rad c2.2 - deg2rad c1.2) / 2) ^ 2))))

theorem atan2_sin_cos {t : ℝ} (h0 : 0 ≤ t) (h1 : t < Real.pi / 2) :
    atan2 (Real.sin t) (Real.cos t) = t := by
  have hpi := Real.pi_pos
  have hc : 0 < Real.cos t :=
    Real.cos_pos_of_mem_Ioo ⟨by linarith, h1⟩
  unfold atan2
  rw [if_pos hc, ← Real.tan_eq_sin_div_cos]
  exact Real.arctan_tan (by linarith) h1

/-- C9: the haversine distance with Earth radius 3958.8 miles is zero
for every coordinate paired with itself, and the distance from Athens,
OH (39.3292, -82.1013) to the point one degree of latitude north equals
3958.8·π/180, which is within 1 percent of 69 miles. -/
theorem C9_haversine :
    (∀ c : ℝ × ℝ, haversine_distance c c = 0) ∧
    |haversine_distance (39.3292, -82.1013) (40.3292, -82.1013) - 69| ≤
      0.01 * 69 := by
  constructor
  · intro c
    unfold haversine_distance
    rw [sub_self, sub_self]
    norm_num
    unfold atan2
    rw [if_pos one_pos]
    norm_num
  · have hpi := Real.pi_pos
    have ht0 : (0 : ℝ) ≤ Real.pi / 360 := by positivity
    have ht1 : Real.pi / 360 < Real.pi / 2 := by linarith
    have key : haversine_distance (39.3292, -82.1013) (40.3292, -82.1013) =
        3958.8 * (2 * (Real.pi / 360)) := by
      unfold haversine_distance
      have hlat : deg2rad (40.3292 : ℝ) - deg2rad 39.3292 = Real.pi / 180 := by
        have h1 : deg2rad (40.3292 : ℝ) - deg2rad 39.3292 =
            ((40.3292 : ℝ) - 39.3292) * Real.pi / 180 := by
          unfold deg2rad
          ring
        rw [h1, show ((40.3292 : ℝ) - 39.3292) = 1 by norm_num, one_mul]
      have hlon : deg2rad (-82.1013 : ℝ) - deg2rad (-82.1013) = 0 :=
        sub_self _
      dsimp only
      rw [hlat, hlon]
      norm_num
      have hs : Real.sqrt (Real.sin (Real.pi / 180 / 2) ^ 2) =
          Real.sin (Real.pi / 360) := by
        rw [show Real.pi / 180 / 2 = Real.pi / 360 by ring]
        exact Real.sqrt_sq (Real.sin_nonneg_of_nonneg_of_le_pi ht0
          (by linarith))
      have hc : Real.sqrt (1 - Real.sin (Real.pi / 180 / 2) ^ 2) =
          Real.cos (Real.pi / 360) := by
        rw [show Real.pi / 180 / 2 = Real.pi / 360 by ring]
        rw [show (1 : ℝ) - Real.sin (Real.pi / 360) ^ 2 =
            Real.cos (Real.pi / 360) ^ 2 by
          have h2 := Real.sin_sq_add_cos_sq (Real.pi / 360)
          linarith]
        exact Real.sqrt_sq (le_of_lt (Real.cos_pos_of_mem_Ioo
          ⟨by linarith, ht1⟩))
      rw [hs, hc, atan2_sin_cos ht0 ht1]
    rw [key, abs_le]
    constructor
    · nlinarith [Real.pi_gt_3141592]
    · nlinarith [Real.pi_lt_315]

end TG
